import Mathlib

/-!
Verification of the timetable-randomizer frontend forms.

The repository has two versions of the class-entry form:
* `frontend/src/components/ClassForm.tsx` — the simple form (modelled below
  with the suffix `V1`);
* an enhanced `ClassForm.tsx` (the unnamed source file `part_001`, modelled
  with the suffix `V2`) that adds `validateInputs`, capacity statistics,
  input clamping and per-field validation errors.

JavaScript numbers that can arise from `parseInt` are modelled by `JsNum`:
either an integer or `NaN`.  All arithmetic and comparison helpers follow
JavaScript semantics (`NaN` propagates through arithmetic, all ordered
comparisons with `NaN` are false, `0`/`NaN` are falsy).  JS objects used as
string-keyed error maps are modelled as association lists where assignment
replaces any previous binding for the key.
-/

/-- A JavaScript number as produced by `parseInt`: an integer or `NaN`. -/
inductive JsNum where
  | nan : JsNum
  | val : Int → JsNum
deriving DecidableEq

/-- JS truthiness of a number: `0` and `NaN` are falsy. -/
def jsTruthy : JsNum → Bool
  | JsNum.nan => false
  | JsNum.val n => n != 0

/-- JS `a || b` on numbers: returns `a` when truthy, else `b`. -/
def jor (a b : JsNum) : JsNum := if jsTruthy a then a else b

/-- JS `+` on numbers: `NaN` propagates. -/
def jadd : JsNum → JsNum → JsNum
  | JsNum.val x, JsNum.val y => JsNum.val (x + y)
  | _, _ => JsNum.nan

/-- JS `*` on numbers: `NaN` propagates. -/
def jmul : JsNum → JsNum → JsNum
  | JsNum.val x, JsNum.val y => JsNum.val (x * y)
  | _, _ => JsNum.nan

/-- JS `-` on numbers: `NaN` propagates. -/
def jsub : JsNum → JsNum → JsNum
  | JsNum.val x, JsNum.val y => JsNum.val (x - y)
  | _, _ => JsNum.nan

/-- JS `a < b`: false whenever either side is `NaN`. -/
def jltB : JsNum → JsNum → Bool
  | JsNum.val x, JsNum.val y => decide (x < y)
  | _, _ => false

/-- JS `a > b`: false whenever either side is `NaN`. -/
def jgtB : JsNum → JsNum → Bool
  | JsNum.val x, JsNum.val y => decide (y < x)
  | _, _ => false

/-- JS `Math.min`: `NaN` if either argument is `NaN`. -/
def jminJ : JsNum → JsNum → JsNum
  | JsNum.val x, JsNum.val y => JsNum.val (min x y)
  | _, _ => JsNum.nan

/-- JS `Math.max`: `NaN` if either argument is `NaN`. -/
def jmaxJ : JsNum → JsNum → JsNum
  | JsNum.val x, JsNum.val y => JsNum.val (max x y)
  | _, _ => JsNum.nan

/-- JS template interpolation of a number into a string. -/
def jstr : JsNum → String
  | JsNum.nan => "NaN"
  | JsNum.val n => toString n

/-- Whitespace characters removed by JS `String.prototype.trim`. -/
def isWsChar (c : Char) : Bool := c == ' ' || c == '\t' || c == '\n' || c == '\r'

/-- JS `s.trim()`: strip leading and trailing whitespace. -/
def trimStr (s : String) : String :=
  ⟨((s.data.dropWhile isWsChar).reverse.dropWhile isWsChar).reverse⟩

/-- `Day` enum from `types.ts`. -/
inductive Day where
  | monday | tuesday | wednesday | thursday | friday
deriving DecidableEq

/-- `ClassInput` interface from `types.ts`. -/
structure ClassInput where
  id : String
  name : String
  teacher : String
  periods_per_week : JsNum
  duration : JsNum
  color : Option String := none
deriving DecidableEq

/-- `TimetableConstraints` interface from `types.ts`
(`lunch_break_period : number | null` becomes `Option JsNum`). -/
structure TimetableConstraints where
  max_classes_per_day : JsNum
  periods_per_day : JsNum
  days_per_week : List Day
  lunch_break_period : Option JsNum
  prefer_morning : Bool
  prefer_afternoon : Bool
deriving DecidableEq

/-- The initial `constraints` state used by both form versions. -/
def initialConstraints : TimetableConstraints :=
  { max_classes_per_day := JsNum.val 8
    periods_per_day := JsNum.val 8
    days_per_week := [Day.monday, Day.tuesday, Day.wednesday, Day.thursday, Day.friday]
    lunch_break_period := some (JsNum.val 4)
    prefer_morning := false
    prefer_afternoon := false }

/-- The blank class object literal `{id, name: '', teacher: '',
periods_per_week: 5, duration: 1}` used by the initial state and by
`addClass` in both form versions. -/
def blankClass (id : String) : ClassInput :=
  { id := id, name := "", teacher := "", periods_per_week := JsNum.val 5,
    duration := JsNum.val 1 }

/-- The initial `classes` state used by both form versions. -/
def initialClasses : List ClassInput :=
  [blankClass "1"]

/-- `totalPeriodsNeeded` from the enhanced form:
`classes.reduce((sum, cls) => sum + (cls.periods_per_week || 0) * (cls.duration || 1), 0)`. -/
def totalPeriodsNeeded (classes : List ClassInput) : JsNum :=
  classes.foldl
    (fun sum cls =>
      jadd sum (jmul (jor cls.periods_per_week (JsNum.val 0))
                     (jor cls.duration (JsNum.val 1))))
    (JsNum.val 0)

/-- `totalPeriodsAvailable` from the enhanced form:
`days_per_week.length * periods_per_day - (lunch_break_period ? days_per_week.length : 0)`. -/
def totalPeriodsAvailable (con : TimetableConstraints) : JsNum :=
  jsub (jmul (JsNum.val con.days_per_week.length) con.periods_per_day)
    (if (match con.lunch_break_period with
         | none => false
         | some l => jsTruthy l) then JsNum.val con.days_per_week.length
     else JsNum.val 0)

/-- JS object assignment `errors[k] = v` on a string-keyed error map,
modelled as an association list where assignment replaces any previous
binding of the key. -/
def objSet (m : List (String × String)) (k v : String) : List (String × String) :=
  (k, v) :: m.filter (fun p => !(p.1 == k))

/-- The error key `class-${id}-${field}` used by `validateInputs`. -/
def classErrKey (id field : String) : String := "class-" ++ id ++ "-" ++ field

/-- The class-name checks of `validateInputs` (required / max length). -/
def checkName (cls : ClassInput) (m : List (String × String)) : List (String × String) :=
  if (cls.name == "") || (trimStr cls.name == "") then
    objSet m (classErrKey cls.id "name") "Class name is required"
  else if 100 < (trimStr cls.name).length then
    objSet m (classErrKey cls.id "name") "Class name too long (max 100 chars)"
  else m

/-- The teacher-name checks of `validateInputs` (required / max length). -/
def checkTeacher (cls : ClassInput) (m : List (String × String)) : List (String × String) :=
  if (cls.teacher == "") || (trimStr cls.teacher == "") then
    objSet m (classErrKey cls.id "teacher") "Teacher name is required"
  else if 100 < (trimStr cls.teacher).length then
    objSet m (classErrKey cls.id "teacher") "Teacher name too long (max 100 chars)"
  else m

/-- The periods-per-week range check of `validateInputs`. -/
def checkPeriods (cls : ClassInput) (m : List (String × String)) : List (String × String) :=
  if jltB cls.periods_per_week (JsNum.val 1) || jgtB cls.periods_per_week (JsNum.val 40) then
    objSet m (classErrKey cls.id "periods") "Periods must be between 1-40"
  else m

/-- The duration range check `1 <= duration <= 4` of `validateInputs`. -/
def checkDurationRange (cls : ClassInput) (m : List (String × String)) : List (String × String) :=
  if jltB cls.duration (JsNum.val 1) || jgtB cls.duration (JsNum.val 4) then
    objSet m (classErrKey cls.id "duration") "Duration must be between 1-4"
  else m

/-- The `duration > periods_per_day` check of `validateInputs`
(writes the same key as the range check, as the JS object does). -/
def checkDurationPpd (ppd : JsNum) (cls : ClassInput) (m : List (String × String)) :
    List (String × String) :=
  if jgtB cls.duration ppd then
    objSet m (classErrKey cls.id "duration")
      ("Duration cannot exceed periods per day (" ++ jstr ppd ++ ")")
  else m

/-- One iteration of the `classes.forEach` loop in `validateInputs`. -/
def classStep (ppd : JsNum) (m : List (String × String)) (cls : ClassInput) :
    List (String × String) :=
  checkDurationPpd ppd cls (checkDurationRange cls (checkPeriods cls (checkTeacher cls (checkName cls m))))

/-- The duplicate-class-id check of `validateInputs`
(`new Set(ids).size !== ids.length`). -/
def dupIdCheck (classes : List ClassInput) (m : List (String × String)) :
    List (String × String) :=
  if (classes.map (fun c => c.id)).Nodup then m
  else objSet m "general" "Duplicate class IDs detected. Please refresh the page."

/-- The lunch-break constraint check of `validateInputs`
(`constraints.lunch_break_period && lunch_break_period > periods_per_day`). -/
def lunchCheck (con : TimetableConstraints) (m : List (String × String)) :
    List (String × String) :=
  match con.lunch_break_period with
  | none => m
  | some l =>
      if jsTruthy l && jgtB l con.periods_per_day then
        objSet m "lunch"
          ("Lunch break period (" ++ jstr l ++ ") cannot exceed periods per day ("
            ++ jstr con.periods_per_day ++ ")")
      else m

/-- The capacity check of `validateInputs`
(`totalPeriodsNeeded > totalPeriodsAvailable`). -/
def capacityCheck (classes : List ClassInput) (con : TimetableConstraints)
    (m : List (String × String)) : List (String × String) :=
  if jgtB (totalPeriodsNeeded classes) (totalPeriodsAvailable con) then
    objSet m "capacity"
      ("Not enough time slots! Need " ++ jstr (totalPeriodsNeeded classes)
        ++ " but only " ++ jstr (totalPeriodsAvailable con) ++ " available.")
  else m

/-- The error map produced by the enhanced form's `validateInputs`,
with the checks in source order: per-class checks, duplicate ids,
lunch constraint, capacity. -/
def validateErrors (classes : List ClassInput) (con : TimetableConstraints) :
    List (String × String) :=
  capacityCheck classes con
    (lunchCheck con
      (dupIdCheck classes
        (classes.foldl (classStep con.periods_per_day) [])))

/-- The enhanced form's `validateInputs` returns
`Object.keys(errors).length === 0`. -/
def validateInputsV2 (classes : List ClassInput) (con : TimetableConstraints) : Bool :=
  (validateErrors classes con).isEmpty

/-- The enhanced form's `handleGenerate` reaches the backend `axios.post`
exactly when `validateInputs()` returned true. -/
def v2Proceeds (classes : List ClassInput) (con : TimetableConstraints) : Bool :=
  validateInputsV2 classes con

/-- The simple form's `handleGenerate` validation:
`classes.filter(c => !c.name || !c.teacher)` must be empty for the
backend `axios.post` to be reached. -/
def v1Proceeds (classes : List ClassInput) : Bool :=
  (classes.filter (fun c => (c.name == "") || (c.teacher == ""))).isEmpty

/-- Preference-checkbox handler (identical in both form versions):
`setConstraints({...constraints, prefer_morning: checked, prefer_afternoon: false})`. -/
def setPreferMorning (con : TimetableConstraints) (checked : Bool) : TimetableConstraints :=
  { con with prefer_morning := checked, prefer_afternoon := false }

/-- Preference-checkbox handler (identical in both form versions):
`setConstraints({...constraints, prefer_afternoon: checked, prefer_morning: false})`. -/
def setPreferAfternoon (con : TimetableConstraints) (checked : Bool) : TimetableConstraints :=
  { con with prefer_afternoon := checked, prefer_morning := false }

/-- One user interaction with a preference checkbox, carrying the
checkbox's new `checked` value. -/
inductive PrefEvent where
  | morning (checked : Bool)
  | afternoon (checked : Bool)

/-- Apply one preference-checkbox event. -/
def applyPrefEvent (con : TimetableConstraints) : PrefEvent → TimetableConstraints
  | PrefEvent.morning b => setPreferMorning con b
  | PrefEvent.afternoon b => setPreferAfternoon con b

/-- Apply a sequence of preference-checkbox events. -/
def applyPrefEvents (con : TimetableConstraints) (evs : List PrefEvent) :
    TimetableConstraints :=
  evs.foldl applyPrefEvent con

/-- The simple form's `addClass`: appends a class whose id is
`(classes.length + 1).toString()`. -/
def addClassV1 (classes : List ClassInput) : List ClassInput :=
  classes ++ [blankClass (toString (classes.length + 1))]

/-- The simple form's `removeClass`: unguarded filter by id. -/
def removeClassV1 (classes : List ClassInput) (id : String) : List ClassInput :=
  classes.filter (fun c => !(c.id == id))

/-- A user interaction with the simple form's class-list buttons. -/
inductive OpV1 where
  | add
  | remove (id : String)

/-- Apply one simple-form class-list operation. -/
def applyOpV1 (classes : List ClassInput) : OpV1 → List ClassInput
  | OpV1.add => addClassV1 classes
  | OpV1.remove id => removeClassV1 classes id

/-- Apply a sequence of simple-form class-list operations. -/
def applyOpsV1 (classes : List ClassInput) (ops : List OpV1) : List ClassInput :=
  ops.foldl applyOpV1 classes

/-- The enhanced form's state touched by `addClass`/`removeClass`:
the class list and the validation-error map. -/
structure FormStateV2 where
  classes : List ClassInput
  validationErrors : List (String × String)
deriving DecidableEq

/-- The initial enhanced-form state. -/
def initialFormV2 : FormStateV2 :=
  { classes := initialClasses, validationErrors := [] }

/-- The enhanced form's `addClass`: appends a class whose id is
`Date.now().toString()`; the timestamp string is an external input and is
passed in as `newId`. -/
def addClassV2 (s : FormStateV2) (newId : String) : FormStateV2 :=
  { s with classes := s.classes ++ [blankClass newId] }

/-- The enhanced form's `removeClass`: only acts when more than one class
remains, filters the class out and deletes its name/teacher validation
errors. -/
def removeClassV2 (s : FormStateV2) (id : String) : FormStateV2 :=
  if 1 < s.classes.length then
    { classes := s.classes.filter (fun c => !(c.id == id))
      validationErrors := s.validationErrors.filter
        (fun p => !(p.1 == classErrKey id "name") && !(p.1 == classErrKey id "teacher")) }
  else s

/-- A user interaction with the enhanced form's class-list buttons; `add`
carries the timestamp id produced by `Date.now().toString()`. -/
inductive OpV2 where
  | add (newId : String)
  | remove (id : String)

/-- Apply one enhanced-form class-list operation. -/
def applyOpV2 (s : FormStateV2) : OpV2 → FormStateV2
  | OpV2.add newId => addClassV2 s newId
  | OpV2.remove id => removeClassV2 s id

/-- Apply a sequence of enhanced-form class-list operations. -/
def applyOpsV2 (s : FormStateV2) (ops : List OpV2) : FormStateV2 :=
  ops.foldl applyOpV2 s

/-- The timestamp ids handed to `addClass` along an operation sequence are
fresh: each differs from every id present when that `addClass` runs. -/
def opsFreshV2 (s : FormStateV2) : List OpV2 → Bool
  | [] => true
  | OpV2.add newId :: rest =>
      !((s.classes.map (fun c => c.id)).contains newId)
        && opsFreshV2 (addClassV2 s newId) rest
  | OpV2.remove id :: rest => opsFreshV2 (removeClassV2 s id) rest

/-- `updateClass` restricted to the `periods_per_week` field: replace the
field on the class with the matching id (no trimming applies to numeric
fields). -/
def updateClassPpw (classes : List ClassInput) (id : String) (v : JsNum) : List ClassInput :=
  classes.map (fun c => if c.id == id then { c with periods_per_week := v } else c)

/-- The enhanced form's periods-per-week `onChange`:
`isNaN(val) ? 1 : Math.max(1, Math.min(40, val))`. -/
def ppwOnChangeV2 (classes : List ClassInput) (id : String) (input : JsNum) :
    List ClassInput :=
  updateClassPpw classes id
    (match input with
     | JsNum.nan => JsNum.val 1
     | JsNum.val n => JsNum.val (max 1 (min 40 n)))

/-- The simple form's periods-per-week `onChange`: stores the raw
`parseInt` result. -/
def ppwOnChangeV1 (classes : List ClassInput) (id : String) (input : JsNum) :
    List ClassInput :=
  updateClassPpw classes id input

/-- The enhanced form's periods-per-day `onChange`:
`isNaN(val) ? 8 : Math.max(4, Math.min(12, val))`. -/
def ppdOnChangeV2 (con : TimetableConstraints) (input : JsNum) : TimetableConstraints :=
  { con with periods_per_day :=
      match input with
      | JsNum.nan => JsNum.val 8
      | JsNum.val n => JsNum.val (max 4 (min 12 n)) }

/-- The simple form's periods-per-day `onChange`: stores the raw
`parseInt` result. -/
def ppdOnChangeV1 (con : TimetableConstraints) (input : JsNum) : TimetableConstraints :=
  { con with periods_per_day := input }

/-- The enhanced form's lunch-break `onChange`:
`val === 0 ? null : Math.max(0, Math.min(periods_per_day, val))`. -/
def lunchOnChangeV2 (con : TimetableConstraints) (input : JsNum) : TimetableConstraints :=
  { con with lunch_break_period :=
      if input == JsNum.val 0 then none
      else some (jmaxJ (JsNum.val 0) (jminJ con.periods_per_day input)) }

/-- The simple form's lunch-break `onChange`:
`parseInt(e.target.value) || null`. -/
def lunchOnChangeV1 (con : TimetableConstraints) (input : JsNum) : TimetableConstraints :=
  { con with lunch_break_period :=
      if jsTruthy input then some input else none }

/-- The integer value of the JS expression `cls.periods_per_week || 0`. -/
def ppwOrZero (c : ClassInput) : Int :=
  match c.periods_per_week with
  | JsNum.nan => 0
  | JsNum.val n => n

/-- The integer value of the JS expression `cls.duration || 1`. -/
def durOrOne (c : ClassInput) : Int :=
  match c.duration with
  | JsNum.nan => 1
  | JsNum.val n => if n = 0 then 1 else n

/-- The stored periods-per-day is an integer in the range `[4, 12]`
required by the specification. -/
def ppdInRangeB (con : TimetableConstraints) : Bool :=
  match con.periods_per_day with
  | JsNum.nan => false
  | JsNum.val n => decide (4 ≤ n) && decide (n ≤ 12)

/-- A class's stored periods-per-week is an integer in the range `[1, 40]`
required by the specification. -/
def ppwInRangeB (c : ClassInput) : Bool :=
  match c.periods_per_week with
  | JsNum.nan => false
  | JsNum.val n => decide (1 ≤ n) && decide (n ≤ 40)

/-- The stored lunch-break value is null, `NaN`, or an integer in `[0, p]`. -/
def lunchStoredOkB (p : Int) : Option JsNum → Bool
  | none => true
  | some JsNum.nan => true
  | some (JsNum.val m) => decide (0 ≤ m) && decide (m ≤ p)

/-- One class requesting 5 periods per week with session duration 2. -/
def exDurTwo : List ClassInput :=
  [{ id := "1", name := "Math", teacher := "Smith", periods_per_week := JsNum.val 5,
     duration := JsNum.val 2 }]

/-- Three classes of 30 periods/week each, duration 1 (the spec's capacity
rejection example). -/
def exOverCapacity : List ClassInput :=
  [{ id := "1", name := "A", teacher := "TA", periods_per_week := JsNum.val 30,
     duration := JsNum.val 1 },
   { id := "2", name := "B", teacher := "TB", periods_per_week := JsNum.val 30,
     duration := JsNum.val 1 },
   { id := "3", name := "C", teacher := "TC", periods_per_week := JsNum.val 30,
     duration := JsNum.val 1 }]

/-- One class whose name is whitespace-only. -/
def exWsName : List ClassInput :=
  [{ id := "1", name := " ", teacher := "Mr. Smith", periods_per_week := JsNum.val 5,
     duration := JsNum.val 1 }]

/-- One class requesting exactly the 35 periods available under the default
constraints. -/
def exExactFit : List ClassInput :=
  [{ id := "1", name := "Math", teacher := "Smith", periods_per_week := JsNum.val 35,
     duration := JsNum.val 1 }]

/-- One class with a whitespace-only name and a distinct teacher, used for
the acceptance comparison of the two forms. -/
def exWsNameB : List ClassInput :=
  [{ id := "1", name := " ", teacher := "T", periods_per_week := JsNum.val 5,
     duration := JsNum.val 1 }]

/-- One fully valid class under the default constraints. -/
def exValid : List ClassInput :=
  [{ id := "1", name := "Math", teacher := "Smith", periods_per_week := JsNum.val 5,
     duration := JsNum.val 1 }]

/-- One valid class with a whitespace-padded name, used as the witness
input of the enhanced form's whitespace validation. -/
def exWsOnly : List ClassInput :=
  [{ id := "1", name := "  ", teacher := "Jones", periods_per_week := JsNum.val 5,
     duration := JsNum.val 1 }]

theorem lookup_objSet_self (m : List (String × String)) (k v : String) :
    (objSet m k v).lookup k = some v := by
  simp [objSet, List.lookup]

theorem lookup_filter_ne (m : List (String × String)) (k q : String) (h : q ≠ k) :
    (m.filter (fun p => !(p.1 == k))).lookup q = m.lookup q := by
  induction m with
  | nil => rfl
  | cons a t ih =>
      by_cases ha : a.1 = k
      · have : (a.1 == k) = true := by simp [ha]
        have hq : (q == a.1) = false := by simp [ha, h]
        simp [List.filter, this, List.lookup, hq, ih]
      · have : (a.1 == k) = false := by simp [ha]
        by_cases hqa : q = a.1
        · simp [List.filter, this, List.lookup, hqa]
        · have hq : (q == a.1) = false := by simp [hqa]
          simp [List.filter, this, List.lookup, hq, ih]

theorem lookup_objSet_ne (m : List (String × String)) (k v q : String) (h : q ≠ k) :
    (objSet m k v).lookup q = m.lookup q := by
  have hq : (q == k) = false := by simp [h]
  simp [objSet, List.lookup, hq, lookup_filter_ne m k q h]

theorem lookup_objSet_isSome (m : List (String × String)) (k v q : String)
    (h : (m.lookup q).isSome) : ((objSet m k v).lookup q).isSome := by
  by_cases hq : q = k
  · subst hq; rw [lookup_objSet_self]; rfl
  · rw [lookup_objSet_ne m k v q hq]; exact h

theorem lookup_isSome_ne_nil (m : List (String × String)) (q : String)
    (h : (m.lookup q).isSome) : m ≠ [] := by
  intro e; subst e; simp [List.lookup] at h

theorem ne_nil_isEmpty_false {α : Type} (m : List α) (h : m ≠ []) : m.isEmpty = false := by
  cases m with
  | nil => exact absurd rfl h
  | cons a t => rfl

theorem lookup_checkName_isSome (cls : ClassInput) (m : List (String × String)) (q : String)
    (h : (m.lookup q).isSome) : ((checkName cls m).lookup q).isSome := by
  unfold checkName
  split
  · exact lookup_objSet_isSome _ _ _ _ h
  · split
    · exact lookup_objSet_isSome _ _ _ _ h
    · exact h

theorem lookup_checkTeacher_isSome (cls : ClassInput) (m : List (String × String)) (q : String)
    (h : (m.lookup q).isSome) : ((checkTeacher cls m).lookup q).isSome := by
  unfold checkTeacher
  split
  · exact lookup_objSet_isSome _ _ _ _ h
  · split
    · exact lookup_objSet_isSome _ _ _ _ h
    · exact h

theorem lookup_checkPeriods_isSome (cls : ClassInput) (m : List (String × String)) (q : String)
    (h : (m.lookup q).isSome) : ((checkPeriods cls m).lookup q).isSome := by
  unfold checkPeriods
  split
  · exact lookup_objSet_isSome _ _ _ _ h
  · exact h

theorem lookup_checkDurationRange_isSome (cls : ClassInput) (m : List (String × String))
    (q : String) (h : (m.lookup q).isSome) :
    ((checkDurationRange cls m).lookup q).isSome := by
  unfold checkDurationRange
  split
  · exact lookup_objSet_isSome _ _ _ _ h
  · exact h

theorem lookup_checkDurationPpd_isSome (ppd : JsNum) (cls : ClassInput)
    (m : List (String × String)) (q : String) (h : (m.lookup q).isSome) :
    ((checkDurationPpd ppd cls m).lookup q).isSome := by
  unfold checkDurationPpd
  split
  · exact lookup_objSet_isSome _ _ _ _ h
  · exact h

theorem lookup_classStep_isSome (ppd : JsNum) (cls : ClassInput)
    (m : List (String × String)) (q : String) (h : (m.lookup q).isSome) :
    ((classStep ppd m cls).lookup q).isSome :=
  lookup_checkDurationPpd_isSome ppd cls _ q
    (lookup_checkDurationRange_isSome cls _ q
      (lookup_checkPeriods_isSome cls _ q
        (lookup_checkTeacher_isSome cls _ q (lookup_checkName_isSome cls m q h))))

theorem lookup_foldl_classStep_isSome (ppd : JsNum) (cs : List ClassInput)
    (m : List (String × String)) (q : String) (h : (m.lookup q).isSome) :
    ((cs.foldl (classStep ppd) m).lookup q).isSome := by
  induction cs generalizing m with
  | nil => exact h
  | cons c t ih => exact ih _ (lookup_classStep_isSome ppd c m q h)

theorem lookup_dupIdCheck_isSome (cs : List ClassInput) (m : List (String × String))
    (q : String) (h : (m.lookup q).isSome) : ((dupIdCheck cs m).lookup q).isSome := by
  unfold dupIdCheck
  split
  · exact h
  · exact lookup_objSet_isSome _ _ _ _ h

theorem lookup_lunchCheck_isSome (con : TimetableConstraints) (m : List (String × String))
    (q : String) (h : (m.lookup q).isSome) : ((lunchCheck con m).lookup q).isSome := by
  unfold lunchCheck
  split
  · exact h
  · split
    · exact lookup_objSet_isSome _ _ _ _ h
    · exact h

theorem lookup_capacityCheck_isSome (cs : List ClassInput) (con : TimetableConstraints)
    (m : List (String × String)) (q : String) (h : (m.lookup q).isSome) :
    ((capacityCheck cs con m).lookup q).isSome := by
  unfold capacityCheck
  split
  · exact lookup_objSet_isSome _ _ _ _ h
  · exact h

theorem name_error_isSome (cs : List ClassInput) (con : TimetableConstraints)
    (c : ClassInput) (hm : c ∈ cs) (hn : trimStr c.name = "") :
    ((validateErrors cs con).lookup (classErrKey c.id "name")).isSome := by
  obtain ⟨l, r, rfl⟩ := List.append_of_mem hm
  unfold validateErrors
  apply lookup_capacityCheck_isSome
  apply lookup_lunchCheck_isSome
  apply lookup_dupIdCheck_isSome
  rw [List.foldl_append, List.foldl_cons]
  apply lookup_foldl_classStep_isSome
  unfold classStep
  apply lookup_checkDurationPpd_isSome
  apply lookup_checkDurationRange_isSome
  apply lookup_checkPeriods_isSome
  apply lookup_checkTeacher_isSome
  unfold checkName
  rw [if_pos (by simp [hn])]
  rw [lookup_objSet_self]
  rfl

theorem teacher_error_isSome (cs : List ClassInput) (con : TimetableConstraints)
    (c : ClassInput) (hm : c ∈ cs) (ht : trimStr c.teacher = "") :
    ((validateErrors cs con).lookup (classErrKey c.id "teacher")).isSome := by
  obtain ⟨l, r, rfl⟩ := List.append_of_mem hm
  unfold validateErrors
  apply lookup_capacityCheck_isSome
  apply lookup_lunchCheck_isSome
  apply lookup_dupIdCheck_isSome
  rw [List.foldl_append, List.foldl_cons]
  apply lookup_foldl_classStep_isSome
  unfold classStep
  apply lookup_checkDurationPpd_isSome
  apply lookup_checkDurationRange_isSome
  apply lookup_checkPeriods_isSome
  unfold checkTeacher
  rw [if_pos (by simp [ht])]
  rw [lookup_objSet_self]
  rfl

theorem classErrKey_ne_capacity (id f : String) (hf : 4 ≤ f.length) :
    classErrKey id f ≠ "capacity" := by
  intro h
  have h2 := congrArg String.length h
  rw [classErrKey, String.length_append, String.length_append, String.length_append] at h2
  rw [show ("class-").length = 6 from rfl, show ("-").length = 1 from rfl,
      show ("capacity").length = 8 from rfl] at h2
  omega

theorem capacity_ne_classErrKey (id f : String) (hf : 4 ≤ f.length) :
    "capacity" ≠ classErrKey id f :=
  fun h => classErrKey_ne_capacity id f hf h.symm

theorem lookup_capacity_checkName (cls : ClassInput) (m : List (String × String)) :
    (checkName cls m).lookup "capacity" = m.lookup "capacity" := by
  unfold checkName
  split
  · exact lookup_objSet_ne _ _ _ _ (capacity_ne_classErrKey _ _ (by decide))
  · split
    · exact lookup_objSet_ne _ _ _ _ (capacity_ne_classErrKey _ _ (by decide))
    · rfl

theorem lookup_capacity_checkTeacher (cls : ClassInput) (m : List (String × String)) :
    (checkTeacher cls m).lookup "capacity" = m.lookup "capacity" := by
  unfold checkTeacher
  split
  · exact lookup_objSet_ne _ _ _ _ (capacity_ne_classErrKey _ _ (by decide))
  · split
    · exact lookup_objSet_ne _ _ _ _ (capacity_ne_classErrKey _ _ (by decide))
    · rfl

theorem lookup_capacity_checkPeriods (cls : ClassInput) (m : List (String × String)) :
    (checkPeriods cls m).lookup "capacity" = m.lookup "capacity" := by
  unfold checkPeriods
  split
  · exact lookup_objSet_ne _ _ _ _ (capacity_ne_classErrKey _ _ (by decide))
  · rfl

theorem lookup_capacity_checkDurationRange (cls : ClassInput) (m : List (String × String)) :
    (checkDurationRange cls m).lookup "capacity" = m.lookup "capacity" := by
  unfold checkDurationRange
  split
  · exact lookup_objSet_ne _ _ _ _ (capacity_ne_classErrKey _ _ (by decide))
  · rfl

theorem lookup_capacity_checkDurationPpd (ppd : JsNum) (cls : ClassInput)
    (m : List (String × String)) :
    (checkDurationPpd ppd cls m).lookup "capacity" = m.lookup "capacity" := by
  unfold checkDurationPpd
  split
  · exact lookup_objSet_ne _ _ _ _ (capacity_ne_classErrKey _ _ (by decide))
  · rfl

theorem lookup_capacity_classStep (ppd : JsNum) (m : List (String × String))
    (cls : ClassInput) :
    (classStep ppd m cls).lookup "capacity" = m.lookup "capacity" := by
  unfold classStep
  rw [lookup_capacity_checkDurationPpd, lookup_capacity_checkDurationRange,
      lookup_capacity_checkPeriods, lookup_capacity_checkTeacher,
      lookup_capacity_checkName]

theorem lookup_capacity_foldl (ppd : JsNum) (cs : List ClassInput)
    (m : List (String × String)) :
    ((cs.foldl (classStep ppd) m).lookup "capacity") = m.lookup "capacity" := by
  induction cs generalizing m with
  | nil => rfl
  | cons c t ih => rw [List.foldl_cons, ih, lookup_capacity_classStep]

theorem lookup_capacity_dupIdCheck (cs : List ClassInput) (m : List (String × String)) :
    (dupIdCheck cs m).lookup "capacity" = m.lookup "capacity" := by
  unfold dupIdCheck
  split
  · rfl
  · exact lookup_objSet_ne _ _ _ _ (by decide)

theorem lookup_capacity_lunchCheck (con : TimetableConstraints)
    (m : List (String × String)) :
    (lunchCheck con m).lookup "capacity" = m.lookup "capacity" := by
  unfold lunchCheck
  split
  · rfl
  · split
    · exact lookup_objSet_ne _ _ _ _ (by decide)
    · rfl

theorem jgtB_irrefl (x : JsNum) : jgtB x x = false := by
  cases x with
  | nan => rfl
  | val n => simp [jgtB]

theorem classContribution (c : ClassInput) :
    jmul (jor c.periods_per_week (JsNum.val 0)) (jor c.duration (JsNum.val 1))
      = JsNum.val (ppwOrZero c * durOrOne c) := by
  cases hp : c.periods_per_week with
  | nan =>
      cases hd : c.duration with
      | nan => simp [jor, jsTruthy, jmul, ppwOrZero, durOrOne, hp, hd]
      | val d =>
          by_cases hd0 : d = 0 <;>
            simp [jor, jsTruthy, jmul, ppwOrZero, durOrOne, hp, hd, hd0]
  | val p =>
      cases hd : c.duration with
      | nan =>
          by_cases hp0 : p = 0 <;>
            simp [jor, jsTruthy, jmul, ppwOrZero, durOrOne, hp, hd, hp0]
      | val d =>
          by_cases hp0 : p = 0 <;> by_cases hd0 : d = 0 <;>
            simp [jor, jsTruthy, jmul, ppwOrZero, durOrOne, hp, hd, hp0, hd0]

theorem totalPeriodsNeeded_foldl (cs : List ClassInput) (a : Int) :
    cs.foldl
      (fun sum cls =>
        jadd sum (jmul (jor cls.periods_per_week (JsNum.val 0))
                       (jor cls.duration (JsNum.val 1))))
      (JsNum.val a)
      = JsNum.val (a + (cs.map (fun c => ppwOrZero c * durOrOne c)).sum) := by
  induction cs generalizing a with
  | nil => simp
  | cons c t ih =>
      rw [List.foldl_cons, classContribution]
      show t.foldl _ (jadd (JsNum.val a) (JsNum.val (ppwOrZero c * durOrOne c))) = _
      rw [show jadd (JsNum.val a) (JsNum.val (ppwOrZero c * durOrOne c))
            = JsNum.val (a + ppwOrZero c * durOrOne c) from rfl, ih]
      simp [add_assoc]

/-- C1 (amended): the enhanced form's `totalPeriodsNeeded` is the sum over
all classes of (periods-per-week, with falsy values defaulted to 0)
multiplied by (session duration, with falsy values defaulted to 1); each
class's request is scaled by its duration, so the total is not
duration-independent. -/
theorem c1_needed_scales_by_duration (cs : List ClassInput) :
    totalPeriodsNeeded cs
      = JsNum.val ((cs.map (fun c => ppwOrZero c * durOrOne c)).sum) := by
  unfold totalPeriodsNeeded
  rw [totalPeriodsNeeded_foldl]
  simp

/-- C1 counterexample: for one class with 5 periods/week and duration 2,
`totalPeriodsNeeded` is 10, not the duration-independent sum of
periods-per-week (5). -/
theorem c1_counterexample :
    totalPeriodsNeeded exDurTwo ≠ JsNum.val ((exDurTwo.map ppwOrZero).sum)
      ∧ totalPeriodsNeeded exDurTwo = JsNum.val 10
      ∧ (exDurTwo.map ppwOrZero).sum = 5 := by
  refine ⟨?_, by decide, by decide⟩
  decide

/-- C2: whenever `totalPeriodsNeeded` exceeds `totalPeriodsAvailable`, the
enhanced form's `validateInputs` records a capacity error naming the
required and available counts, and `handleGenerate` never reaches the
backend `axios.post`. -/
theorem c2_capacity_rejects (cs : List ClassInput) (con : TimetableConstraints)
    (h : jgtB (totalPeriodsNeeded cs) (totalPeriodsAvailable con) = true) :
    (validateErrors cs con).lookup "capacity"
        = some ("Not enough time slots! Need " ++ jstr (totalPeriodsNeeded cs)
            ++ " but only " ++ jstr (totalPeriodsAvailable con) ++ " available.")
      ∧ v2Proceeds cs con = false := by
  have hl : (validateErrors cs con).lookup "capacity"
      = some ("Not enough time slots! Need " ++ jstr (totalPeriodsNeeded cs)
          ++ " but only " ++ jstr (totalPeriodsAvailable con) ++ " available.") := by
    unfold validateErrors capacityCheck
    rw [if_pos h, lookup_objSet_self]
  refine ⟨hl, ?_⟩
  unfold v2Proceeds validateInputsV2
  exact ne_nil_isEmpty_false _
    (lookup_isSome_ne_nil _ "capacity" (by rw [hl]; rfl))

/-- C2 witness: the spec's capacity-rejection example (3 classes of 30
periods/week, duration 1, over 5 days of 8 periods with a lunch break:
90 needed, 35 available) is rejected with the capacity message and the
backend call is not reached. -/
theorem c2_capacity_rejects_witness :
    jgtB (totalPeriodsNeeded exOverCapacity) (totalPeriodsAvailable initialConstraints) = true
      ∧ ((validateErrors exOverCapacity initialConstraints).lookup "capacity"
          = some ("Not enough time slots! Need "
              ++ jstr (totalPeriodsNeeded exOverCapacity) ++ " but only "
              ++ jstr (totalPeriodsAvailable initialConstraints) ++ " available.")
        ∧ v2Proceeds exOverCapacity initialConstraints = false) :=
  ⟨by decide, c2_capacity_rejects exOverCapacity initialConstraints (by decide)⟩

/-- C3 counterexample: in the simple form, a class whose name is
whitespace-only (here a single space) passes the `!c.name || !c.teacher`
check, so `handleGenerate` proceeds to the backend request. -/
theorem c3_counterexample :
    trimStr " " = "" ∧ v1Proceeds exWsName = true := by
  constructor
  · decide
  · decide

/-- C3 (amended): in the enhanced form, every class whose name or teacher
is empty or whitespace-only gets a validation error recorded under its own
class key, and `handleGenerate` does not reach the backend; the simple form
blocks the request only for empty-string names/teachers, and lets
whitespace-only values through. -/
theorem c3_v2_rejects_blank (cs : List ClassInput) (con : TimetableConstraints)
    (c : ClassInput) (hm : c ∈ cs)
    (h : trimStr c.name = "" ∨ trimStr c.teacher = "") :
    (((validateErrors cs con).lookup (classErrKey c.id "name")).isSome
        ∨ ((validateErrors cs con).lookup (classErrKey c.id "teacher")).isSome)
      ∧ v2Proceeds cs con = false := by
  have hsome : ((validateErrors cs con).lookup (classErrKey c.id "name")).isSome
      ∨ ((validateErrors cs con).lookup (classErrKey c.id "teacher")).isSome := by
    cases h with
    | inl hn => exact Or.inl (name_error_isSome cs con c hm hn)
    | inr ht => exact Or.inr (teacher_error_isSome cs con c hm ht)
  refine ⟨hsome, ?_⟩
  unfold v2Proceeds validateInputsV2
  cases hsome with
  | inl hs => exact ne_nil_isEmpty_false _ (lookup_isSome_ne_nil _ _ hs)
  | inr hs => exact ne_nil_isEmpty_false _ (lookup_isSome_ne_nil _ _ hs)

/-- C3 witness: a class with a whitespace-only name in the enhanced form
yields a recorded name/teacher error and no backend call. -/
theorem c3_v2_rejects_blank_witness :
    (((validateErrors exWsOnly initialConstraints).lookup (classErrKey "1" "name")).isSome
        ∨ (((validateErrors exWsOnly initialConstraints).lookup (classErrKey "1" "teacher")).isSome))
      ∧ v2Proceeds exWsOnly initialConstraints = false :=
  c3_v2_rejects_blank exWsOnly initialConstraints
    { id := "1", name := "  ", teacher := "Jones", periods_per_week := JsNum.val 5,
      duration := JsNum.val 1 }
    (by decide) (Or.inl (by decide))

/-- C4: when the total required period count equals the total available
count, the enhanced form's capacity check (which is strict) records no
capacity error. -/
theorem c4_capacity_boundary (cs : List ClassInput) (con : TimetableConstraints)
    (h : totalPeriodsNeeded cs = totalPeriodsAvailable con) :
    (validateErrors cs con).lookup "capacity" = none := by
  unfold validateErrors capacityCheck
  rw [h, jgtB_irrefl, if_neg (by simp)]
  rw [lookup_capacity_lunchCheck, lookup_capacity_dupIdCheck, lookup_capacity_foldl]
  rfl

/-- C4 witness: one class of 35 periods/week at duration 1, against the
default 5 days of 8 periods with lunch, needs exactly the 35 available
periods; no capacity error is recorded and generation proceeds. -/
theorem c4_capacity_boundary_witness :
    totalPeriodsNeeded exExactFit = totalPeriodsAvailable initialConstraints
      ∧ (validateErrors exExactFit initialConstraints).lookup "capacity" = none
      ∧ v2Proceeds exExactFit initialConstraints = true :=
  ⟨by decide, c4_capacity_boundary exExactFit initialConstraints (by decide), by decide⟩

/-- C5: the enhanced form's `totalPeriodsAvailable` is
`active_days * periods_per_day` minus one period per active day exactly
when the stored lunch-break period is truthy (a nonzero integer), and
minus nothing when it is null, zero or `NaN`. -/
theorem c5_available_formula (con : TimetableConstraints) (p : Int)
    (hp : con.periods_per_day = JsNum.val p) :
    (∀ n : Int, con.lunch_break_period = some (JsNum.val n) → n ≠ 0 →
        totalPeriodsAvailable con
          = JsNum.val ((con.days_per_week.length : Int) * p - con.days_per_week.length))
      ∧ ((con.lunch_break_period = none ∨ con.lunch_break_period = some (JsNum.val 0)
            ∨ con.lunch_break_period = some JsNum.nan) →
          totalPeriodsAvailable con
            = JsNum.val ((con.days_per_week.length : Int) * p)) := by
  constructor
  · intro n hn hn0
    unfold totalPeriodsAvailable
    rw [hp, hn]
    simp [jsTruthy, hn0, jmul, jsub]
  · intro hcase
    unfold totalPeriodsAvailable
    rw [hp]
    rcases hcase with h | h | h <;> rw [h] <;> simp [jsTruthy, jmul, jsub]

/-- C5 witness: under the default constraints (5 days, 8 periods per day,
lunch at period 4) the available count is 5 × 8 − 5 = 35. -/
theorem c5_available_formula_witness :
    totalPeriodsAvailable initialConstraints
      = JsNum.val ((initialConstraints.days_per_week.length : Int) * 8
          - initialConstraints.days_per_week.length) :=
  (c5_available_formula initialConstraints 8 rfl).1 4 rfl (by decide)

theorem pref_fold_invariant (evs : List PrefEvent) (con : TimetableConstraints)
    (h : ¬(con.prefer_morning = true ∧ con.prefer_afternoon = true)) :
    ¬((applyPrefEvents con evs).prefer_morning = true
        ∧ (applyPrefEvents con evs).prefer_afternoon = true) := by
  induction evs generalizing con with
  | nil => exact h
  | cons ev rest ih =>
      show ¬((applyPrefEvents (applyPrefEvent con ev) rest).prefer_morning = true ∧ _)
      apply ih
      cases ev with
      | morning b => simp [applyPrefEvent, setPreferMorning]
      | afternoon b => simp [applyPrefEvent, setPreferAfternoon]

/-- C6: from the initial state (both preference flags false), every
constraints state reachable through the preference-checkbox handlers has
at most one of `prefer_morning`/`prefer_afternoon` true, and each handler
sets the opposite flag to false. -/
theorem c6_pref_mutex :
    (∀ evs : List PrefEvent,
        ¬((applyPrefEvents initialConstraints evs).prefer_morning = true
            ∧ (applyPrefEvents initialConstraints evs).prefer_afternoon = true))
      ∧ (∀ (con : TimetableConstraints) (b : Bool),
          (setPreferMorning con b).prefer_afternoon = false
            ∧ (setPreferAfternoon con b).prefer_morning = false) := by
  constructor
  · intro evs
    exact pref_fold_invariant evs initialConstraints (by simp [initialConstraints])
  · intro con b
    exact ⟨rfl, rfl⟩

/-- C7 counterexample: in the simple form, the sequence add, add,
remove the second class, add — starting from the initial single class —
produces class ids `["1", "3", "3"]`, which are not pairwise distinct. -/
theorem c7_counterexample :
    (applyOpsV1 initialClasses [OpV1.add, OpV1.add, OpV1.remove "2", OpV1.add]).map
        (fun c => c.id) = ["1", "3", "3"]
      ∧ ¬((applyOpsV1 initialClasses [OpV1.add, OpV1.add, OpV1.remove "2", OpV1.add]).map
          (fun c => c.id)).Nodup := by
  constructor
  · decide
  · decide

theorem nodup_addClassV2 (s : FormStateV2) (newId : String)
    (hn : (s.classes.map (fun c => c.id)).Nodup)
    (hf : ((s.classes.map (fun c => c.id)).contains newId) = false) :
    ((addClassV2 s newId).classes.map (fun c => c.id)).Nodup := by
  have hnot : newId ∉ s.classes.map (fun c => c.id) := by
    intro hmem
    rw [show ((s.classes.map (fun c => c.id)).contains newId)
          = (s.classes.map (fun c => c.id)).elem newId from rfl] at hf
    have h1 := List.elem_iff.mpr hmem
    rw [h1] at hf
    exact Bool.noConfusion hf
  unfold addClassV2
  simp only [List.map_append]
  rw [List.nodup_append]
  refine ⟨hn, by simp [blankClass], ?_⟩
  intro a ha hb
  simp [blankClass] at hb
  exact hnot (hb ▸ ha)

theorem nodup_removeClassV2 (s : FormStateV2) (id : String)
    (hn : (s.classes.map (fun c => c.id)).Nodup) :
    ((removeClassV2 s id).classes.map (fun c => c.id)).Nodup := by
  unfold removeClassV2
  split
  · exact List.Nodup.sublist (List.Sublist.map _ (List.filter_sublist _)) hn
  · exact hn

/-- C7 (amended): in the enhanced form, where `addClass` assigns a
timestamp-derived id, the class ids stay pairwise distinct after every
sequence of `addClass`/`removeClass` operations, provided every id handed
to `addClass` differs from the ids present at that moment; the simple
form's sequential `length + 1` ids can collide after removals. -/
theorem c7_v2_ids_nodup (s : FormStateV2) (ops : List OpV2)
    (hn : (s.classes.map (fun c => c.id)).Nodup)
    (hf : opsFreshV2 s ops = true) :
    ((applyOpsV2 s ops).classes.map (fun c => c.id)).Nodup := by
  induction ops generalizing s with
  | nil => exact hn
  | cons op rest ih =>
      cases op with
      | add newId =>
          rw [opsFreshV2, Bool.and_eq_true] at hf
          obtain ⟨h1, h2⟩ := hf
          exact ih (addClassV2 s newId)
            (nodup_addClassV2 s newId hn (by simpa using h1)) h2
      | remove id =>
          rw [opsFreshV2] at hf
          exact ih (removeClassV2 s id) (nodup_removeClassV2 s id hn) hf

/-- C7 witness: adding a class with a fresh timestamp id and removing the
original keeps the ids pairwise distinct. -/
theorem c7_v2_ids_nodup_witness :
    opsFreshV2 initialFormV2 [OpV2.add "1728000000000", OpV2.remove "1"] = true
      ∧ ((applyOpsV2 initialFormV2 [OpV2.add "1728000000000", OpV2.remove "1"]).classes.map
          (fun c => c.id)).Nodup :=
  ⟨by decide,
   c7_v2_ids_nodup initialFormV2 [OpV2.add "1728000000000", OpV2.remove "1"]
     (by decide) (by decide)⟩

/-- C8 counterexample: the simple form's periods-per-day `onChange` stores
the raw parsed value; input 13 leaves `periods_per_day = 13`, outside
`[4, 12]`. -/
theorem c8_counterexample :
    ppdInRangeB (ppdOnChangeV1 initialConstraints (JsNum.val 13)) = false
      ∧ (ppdOnChangeV1 initialConstraints (JsNum.val 13)).periods_per_day
          = JsNum.val 13 := by
  constructor
  · decide
  · decide

/-- C8 (amended): the enhanced form's handlers clamp: after any
periods-per-day update the stored value is an integer in `[4, 12]`
(non-numeric input yields 8), and a periods-per-week update keeps every
class's stored value an integer in `[1, 40]` (non-numeric input yields 1);
the simple form stores the raw parsed value unclamped. -/
theorem c8_v2_clamps (con : TimetableConstraints) (input : JsNum)
    (cs : List ClassInput) (id : String) (input2 : JsNum)
    (hall : cs.all ppwInRangeB = true) :
    ppdInRangeB (ppdOnChangeV2 con input) = true
      ∧ (ppwOnChangeV2 cs id input2).all ppwInRangeB = true := by
  constructor
  · cases input with
    | nan => simp [ppdOnChangeV2, ppdInRangeB]
    | val n =>
        simp only [ppdOnChangeV2, ppdInRangeB, Bool.and_eq_true, decide_eq_true_eq]
        omega
  · rw [List.all_eq_true] at hall
    rw [List.all_eq_true]
    intro c hc
    unfold ppwOnChangeV2 updateClassPpw at hc
    obtain ⟨c0, hc0, rfl⟩ := List.mem_map.mp hc
    by_cases hid : (c0.id == id) = true
    · simp only [hid, if_true]
      cases input2 with
      | nan => simp [ppwInRangeB]
      | val n =>
          simp only [ppwInRangeB, Bool.and_eq_true, decide_eq_true_eq]
          omega
    · simp only [Bool.not_eq_true] at hid
      simp only [hid, Bool.false_eq_true, if_false]
      exact hall c0 hc0

/-- C8 witness: a clamped update at an out-of-range input and a
non-numeric periods-per-week update both land in range. -/
theorem c8_v2_clamps_witness :
    initialClasses.all ppwInRangeB = true
      ∧ (ppdInRangeB (ppdOnChangeV2 initialConstraints (JsNum.val 99)) = true
        ∧ (ppwOnChangeV2 initialClasses "1" JsNum.nan).all ppwInRangeB = true) :=
  ⟨by decide,
   c8_v2_clamps initialConstraints (JsNum.val 99) initialClasses "1" JsNum.nan (by decide)⟩

/-- C9 counterexample: in the enhanced form with 8 periods per day, a
lunch-break input of −5 stores `Math.max(0, Math.min(8, -5)) = 0`, which
is neither null nor an integer in `[1, 8]` (only input exactly 0 maps to
null). -/
theorem c9_counterexample :
    (lunchOnChangeV2 initialConstraints (JsNum.val (-5))).lunch_break_period
        = some (JsNum.val 0)
      ∧ ¬((lunchOnChangeV2 initialConstraints (JsNum.val (-5))).lunch_break_period = none
          ∨ ∃ n : Int,
              (lunchOnChangeV2 initialConstraints (JsNum.val (-5))).lunch_break_period
                  = some (JsNum.val n) ∧ 1 ≤ n ∧ n ≤ 8) := by
  have hstored : (lunchOnChangeV2 initialConstraints (JsNum.val (-5))).lunch_break_period
      = some (JsNum.val 0) := by decide
  refine ⟨hstored, ?_⟩
  rintro (h | ⟨n, hn, h1, h8⟩)
  · rw [hstored] at h
    exact Option.noConfusion h
  · rw [hstored] at hn
    injection hn with h2
    injection h2 with h3
    omega

/-- C9 (amended): after any enhanced-form lunch-break update, the stored
value is null (exactly for input 0), `NaN` (exactly for non-numeric input),
or an integer clamped into `[0, periods_per_day]` — negative inputs are
clamped to 0 rather than rejected; the simple form instead stores any
nonzero parsed integer unclamped, mapping 0 and non-numeric input to
null. -/
theorem c9_v2_lunch_clamped (con : TimetableConstraints) (p : Int) (input : JsNum)
    (hp : con.periods_per_day = JsNum.val p) (hp0 : 0 ≤ p) :
    lunchStoredOkB p (lunchOnChangeV2 con input).lunch_break_period = true
      ∧ (input = JsNum.val 0 → (lunchOnChangeV2 con input).lunch_break_period = none)
      ∧ (input = JsNum.nan → (lunchOnChangeV2 con input).lunch_break_period
          = some JsNum.nan) := by
  cases input with
  | nan =>
      refine ⟨?_, ?_, ?_⟩
      · simp [lunchOnChangeV2, hp, jminJ, jmaxJ, lunchStoredOkB]
      · intro h; exact JsNum.noConfusion h
      · intro h; simp [lunchOnChangeV2, hp, jminJ, jmaxJ]
  | val n =>
      by_cases hn : n = 0
      · subst hn
        refine ⟨?_, ?_, ?_⟩
        · simp [lunchOnChangeV2, lunchStoredOkB]
        · intro h; simp [lunchOnChangeV2]
        · intro h; exact JsNum.noConfusion h
      · have hne : (JsNum.val n == JsNum.val 0) = false := by
          simp [hn]
        refine ⟨?_, ?_, ?_⟩
        · simp only [lunchOnChangeV2, hne, Bool.false_eq_true, if_false, hp, jminJ, jmaxJ,
            lunchStoredOkB, Bool.and_eq_true, decide_eq_true_eq]
          omega
        · intro h
          injection h with h2
          exact absurd h2 hn
        · intro h; exact JsNum.noConfusion h

/-- C9 witness: with 8 periods per day, an over-range input of 20 is
clamped into `[0, 8]`, input 0 stores null, and non-numeric input stores
`NaN`. -/
theorem c9_v2_lunch_clamped_witness :
    lunchStoredOkB 8 (lunchOnChangeV2 initialConstraints (JsNum.val 20)).lunch_break_period = true
      ∧ (JsNum.val 20 = JsNum.val 0 →
          (lunchOnChangeV2 initialConstraints (JsNum.val 20)).lunch_break_period = none)
      ∧ (JsNum.val 20 = JsNum.nan →
          (lunchOnChangeV2 initialConstraints (JsNum.val 20)).lunch_break_period
            = some JsNum.nan) :=
  c9_v2_lunch_clamped initialConstraints 8 (JsNum.val 20) rfl (by decide)

/-- C10 counterexample: for one class with a whitespace-only name, the
simple form's `handleGenerate` proceeds to the backend call while the
enhanced form's `validateInputs` rejects, so the two acceptance predicates
are not equivalent. -/
theorem c10_counterexample :
    v1Proceeds exWsNameB = true ∧ v2Proceeds exWsNameB initialConstraints = false := by
  constructor
  · decide
  · decide

/-- C10 (amended): the refinement holds in one direction only — whenever
the enhanced form's `validateInputs` accepts, the simple form's
`handleGenerate` proceeds on the same classes; the converse fails because
the simple form checks only that names and teachers are non-empty
strings. -/
theorem c10_v2_accept_implies_v1 (cs : List ClassInput) (con : TimetableConstraints)
    (h : v2Proceeds cs con = true) : v1Proceeds cs = true := by
  have he : validateErrors cs con = [] := by
    unfold v2Proceeds validateInputsV2 at h
    exact List.isEmpty_iff.mp h
  unfold v1Proceeds
  rw [List.isEmpty_iff, List.filter_eq_nil_iff]
  intro c hc
  simp only [Bool.or_eq_true, beq_iff_eq, not_or]
  constructor
  · intro hname
    have htr : trimStr c.name = "" := by rw [hname]; decide
    have hs := name_error_isSome cs con c hc htr
    rw [he] at hs
    simp [List.lookup] at hs
  · intro hteacher
    have htr : trimStr c.teacher = "" := by rw [hteacher]; decide
    have hs := teacher_error_isSome cs con c hc htr
    rw [he] at hs
    simp [List.lookup] at hs

/-- C10 witness: a fully valid single class is accepted by the enhanced
form and the simple form proceeds on it. -/
theorem c10_v2_accept_implies_v1_witness :
    v2Proceeds exValid initialConstraints = true ∧ v1Proceeds exValid = true :=
  ⟨by decide, c10_v2_accept_implies_v1 exValid initialConstraints (by decide)⟩
